import Mathlib

/-!
Shallow embedding of the authenticated host-control core of the
`local_llm` repository:

* `src/glance/custom_api_extension/flask_utils.py`
  (`detect_platform`, `run_command`)
* `src/glance/custom_api_extension/host_flask.py`
  (`token_required`, `_extract_token_from_request`,
   `_get_shutdown_command`, `_get_restart_command`,
   the `/shutdown` and `/restart` handlers)

Strings are Lean `String`s; Python string primitives (`lower`,
`strip`, `startswith`, `in`, `split`) are re-implemented below over
`List Char` so that everything is executable by the kernel.
Optional request fields (the `Authorization` header, the `token` form
field and query parameter) are `Option String`; Python truthiness on
an optional string (`if not token`) is `pyFalsy`.
-/

/-- Python `str.lower` on a single character (ASCII case folding,
which covers every string the embedded code compares). -/
def lowerCh (c : Char) : Char :=
  if 65 ≤ c.toNat ∧ c.toNat ≤ 90 then Char.ofNat (c.toNat + 32) else c

/-- Python `str.lower`. -/
def lowerStr (s : String) : String :=
  String.mk (s.toList.map lowerCh)

/-- Python whitespace as tested by `str.strip()`. -/
def isPyWs (c : Char) : Bool :=
  c = ' ' || c = '\t' || c = '\n' || c = '\r' || c = '\x0b' || c = '\x0c'

/-- Python `str.strip()`: drop leading and trailing whitespace. -/
def pyStrip (s : String) : String :=
  String.mk (((s.toList.dropWhile isPyWs).reverse.dropWhile isPyWs).reverse)

/-- `pat` is a prefix of `l` (character lists). -/
def listStarts : List Char → List Char → Bool
  | [], _ => true
  | _ :: _, [] => false
  | a :: as, b :: bs => a = b && listStarts as bs

/-- Python `s.startswith(pat)`. -/
def hasPfx (pat s : String) : Bool :=
  listStarts pat.toList s.toList

/-- `pat` occurs as a contiguous sublist of `l`. -/
def listHasSub (pat : List Char) : List Char → Bool
  | [] => pat.isEmpty
  | c :: t => listStarts pat (c :: t) || listHasSub pat t

/-- Python `pat in s` (substring containment). -/
def hasSub (pat s : String) : Bool :=
  listHasSub pat.toList s.toList

/-- Characters strictly before the first occurrence of `c`
(the whole list when `c` does not occur). -/
def takeBefore (c : Char) : List Char → List Char
  | [] => []
  | x :: t => if x = c then [] else x :: takeBefore c t

/-- Python `s.split("-")[0]`: the text before the first hyphen. -/
def textBeforeFirstHyphen (s : String) : String :=
  String.mk (takeBefore '-' s.toList)

/-- Characters strictly after the first occurrence of `c`
(empty when `c` does not occur; the embedded code only calls this
when a space is known to occur). -/
def dropThrough (c : Char) : List Char → List Char
  | [] => []
  | x :: t => if x = c then t else dropThrough c t

/-- Python `s.split(" ", 1)[1]`: the text after the first space. -/
def afterFirstSpace (s : String) : String :=
  String.mk (dropThrough ' ' s.toList)

/-- Python `a or b` on two optional strings: the left value when it
is truthy (present and non-empty), otherwise the right operand. -/
def pyOrStr (a b : Option String) : Option String :=
  match a with
  | some s => if s = "" then b else some s
  | none => b

/-- Python `not x` on an optional string: true exactly when the value
is absent (`None`) or the empty string. -/
def pyFalsy : Option String → Bool
  | none => true
  | some s => s = ""

/-!
## `flask_utils.detect_platform`

The impure reads are inputs: `systemRaw` is `platform.system()`,
`releaseRaw` is `platform.release()`, `distroSource` is
`distro.id()`'s value when the `distro` module imported (`none` when
the import failed), and `platformDesc` is `platform.platform()`.
-/

/-- `flask_utils.detect_platform` (src/glance/custom_api_extension/flask_utils.py:18-53). -/
def detect_platform (systemRaw releaseRaw : String) (distroSource : Option String)
    (platformDesc : String) : String :=
  let system := lowerStr systemRaw
  let release := lowerStr releaseRaw
  if system = "linux" then
    if hasSub "microsoft" release then "wsl"
    else
      let distro :=
        match distroSource with
        | some d => d
        | none => textBeforeFirstHyphen platformDesc
      if distro ≠ "" then "linux-" ++ distro else "linux"
  else system

/-!
## `flask_utils.run_command`

`subprocess.run(command, shell=True, check=True, capture_output=True,
text=True)` is modelled by a `ProcOutcome` input: the process either
ran to completion with an exit status and captured stdout, or failed
to launch (`OSError`/`RuntimeError`) with a message. With `check=True`
a nonzero exit status raises `CalledProcessError`, whose `str()` is
`Command '<cmd>' returned non-zero exit status <code>.`.
-/

inductive ProcOutcome where
  | exited (stdout : String) (code : Nat)
  | launchError (msg : String)
deriving DecidableEq, Repr

/-- `str(subprocess.CalledProcessError(code, cmd))` for a positive exit status. -/
def calledProcessErrorStr (cmd : String) (code : Nat) : String :=
  "Command \x27" ++ cmd ++ "\x27 returned non-zero exit status " ++ toString code ++ "."

/-- `flask_utils.run_command` (src/glance/custom_api_extension/flask_utils.py:56-89). -/
def run_command (command : String) (outcome : ProcOutcome) : String × Nat :=
  match outcome with
  | .exited out 0 => (out, 0)
  | .exited _ (n + 1) => (calledProcessErrorStr command (n + 1), n + 1)
  | .launchError msg => (msg, 1)

/-!
## `host_flask` authentication and command resolution
-/

/-- `host_flask._extract_token_from_request`
(src/glance/custom_api_extension/host_flask.py:133-143). The three
arguments are `request.headers.get('Authorization')`,
`request.form.get('token')` and `request.args.get('token')`; the code
reads the header with default `''`. -/
def extract_token_from_request (authHeader formToken argsToken : Option String) :
    Option String :=
  let auth_header := authHeader.getD ""
  if auth_header ≠ "" then
    if hasPfx "bearer " (lowerStr auth_header) then
      some (pyStrip (afterFirstSpace auth_header))
    else
      some (pyStrip auth_header)
  else
    pyOrStr formToken argsToken

/-- An HTTP response: status plus the JSON body fields the handlers
emit (`message` always, `platform`/`error` when present). -/
structure HttpResponse where
  status : Nat
  message : String
  platform : Option String := none
  error : Option String := none
deriving DecidableEq, Repr

/-- `host_flask.token_required` (src/glance/custom_api_extension/host_flask.py:109-130)
applied to a handler result. `valid_token` is
`os.getenv('MY_SECRET_TOKEN', '')`. Alongside the response we thread
the list of shell commands the request executed, so that a guard
rejection yields `[]`. -/
def token_required (valid_token : String) (authHeader formToken argsToken : Option String)
    (f : HttpResponse × List String) : HttpResponse × List String :=
  let token := extract_token_from_request authHeader formToken argsToken
  if pyFalsy token then
    ({ status := 403, message := "Token is missing!" }, [])
  else if token ≠ some valid_token then
    ({ status := 403, message := "Invalid token!" }, [])
  else
    f

/-- `host_flask._get_shutdown_command` (src/glance/custom_api_extension/host_flask.py:167-181). -/
def get_shutdown_command (platform_id : String) : Option String :=
  if platform_id = "linux" || platform_id = "wsl" || platform_id = "darwin"
      || hasPfx "linux" platform_id then
    some "sudo shutdown -h now"
  else if platform_id = "windows" then
    some "shutdown /s /f /t 0"
  else
    none

/-- `host_flask._get_restart_command` (src/glance/custom_api_extension/host_flask.py:184-198). -/
def get_restart_command (platform_id : String) : Option String :=
  if platform_id = "linux" || platform_id = "wsl" || platform_id = "darwin"
      || hasPfx "linux" platform_id then
    some "shutdown -r now"
  else if platform_id = "windows" then
    some "shutdown /r /f /t 0"
  else
    none

/-!
## `host_flask` dispatchers

`detect_platform()` and `run_command` are impure at the Python level;
the handlers take the detected `platform_id` and an executor oracle
`exec : String → String × Nat` (command ↦ `run_command` result) as
inputs. The second component of the result lists the commands passed
to `run_command` during the request.
-/

/-- Body of `host_flask.shutdown` after the auth guard
(src/glance/custom_api_extension/host_flask.py:212-243). -/
def shutdown_handler (platform_id : String) (exec : String → String × Nat) :
    HttpResponse × List String :=
  let command := get_shutdown_command platform_id
  if pyFalsy command then
    ({ status := 400, message := "Unsupported platform: " ++ platform_id }, [])
  else
    let cmd := command.getD ""
    let r := exec cmd
    if r.2 ≠ 0 then
      ({ status := 500, message := "Failed to shut down", error := some (pyStrip r.1) }, [cmd])
    else
      ({ status := 200, message := "Shutdown command issued", platform := some platform_id },
        [cmd])

/-- Body of `host_flask.restart` after the auth guard
(src/glance/custom_api_extension/host_flask.py:246-277). -/
def restart_handler (platform_id : String) (exec : String → String × Nat) :
    HttpResponse × List String :=
  let command := get_restart_command platform_id
  if pyFalsy command then
    ({ status := 400, message := "Unsupported platform: " ++ platform_id }, [])
  else
    let cmd := command.getD ""
    let r := exec cmd
    if r.2 ≠ 0 then
      ({ status := 500, message := "Failed to restart", error := some (pyStrip r.1) }, [cmd])
    else
      ({ status := 200, message := "Restart command issued", platform := some platform_id },
        [cmd])

/-- `POST /shutdown`: `token_required` wrapped around `shutdown`. -/
def shutdown_endpoint (valid_token : String) (authHeader formToken argsToken : Option String)
    (platform_id : String) (exec : String → String × Nat) : HttpResponse × List String :=
  token_required valid_token authHeader formToken argsToken (shutdown_handler platform_id exec)

/-- `POST /restart`: `token_required` wrapped around `restart`. -/
def restart_endpoint (valid_token : String) (authHeader formToken argsToken : Option String)
    (platform_id : String) (exec : String → String × Nat) : HttpResponse × List String :=
  token_required valid_token authHeader formToken argsToken (restart_handler platform_id exec)

/-!
## Specification-side definitions

Used to compare the code's behaviour with the spec's wording on
refinement-style claims. Each is written from the spec text, not the
source.
-/

/-- Spec-side platform detection, written from the algorithm in
spec section 4.1: non-linux families map to the lowercased family
name; on linux the microsoft check precedes distro detection; the
distro falls back to the text before the first hyphen of the generic
platform description when the distribution-info source is
unavailable; an empty distro gives plain "linux". -/
def detect_platform_spec (systemRaw releaseRaw : String) (distroSource : Option String)
    (platformDesc : String) : String :=
  let family := lowerStr systemRaw
  if family ≠ "linux" then family
  else if hasSub "microsoft" (lowerStr releaseRaw) then "wsl"
  else
    let distro := distroSource.getD (textBeforeFirstHyphen platformDesc)
    if distro = "" then "linux" else "linux-" ++ distro

/-- Spec-side credential extraction, written from the wording of
spec section 4.4 as repeated in claim C4: a present Authorization
header always yields the credential (bearer remainder trimmed, or the
whole value trimmed); only an absent header falls back to the form
field and then the query parameter. -/
def extract_token_spec (authHeader formToken argsToken : Option String) : Option String :=
  match authHeader with
  | some h =>
      if hasPfx "bearer " (lowerStr h) then some (pyStrip (afterFirstSpace h))
      else some (pyStrip h)
  | none => pyOrStr formToken argsToken

/-- Amended spec-side credential extraction: identical to
`extract_token_spec` except that a present Authorization header whose
value is the empty string is treated like an absent header, falling
back to the form field and then the query parameter (this is what the
code's truthiness test does). -/
def extract_token_spec_amended (authHeader formToken argsToken : Option String) :
    Option String :=
  match authHeader with
  | some h =>
      if h = "" then pyOrStr formToken argsToken
      else if hasPfx "bearer " (lowerStr h) then some (pyStrip (afterFirstSpace h))
      else some (pyStrip h)
  | none => pyOrStr formToken argsToken

/-!
## Helper lemmas
-/

/-- The shutdown resolver never returns the empty string as a command. -/
lemma get_shutdown_command_ne_empty {p c : String} (h : get_shutdown_command p = some c) :
    c ≠ "" := by
  unfold get_shutdown_command at h
  split_ifs at h <;> simp only [Option.some.injEq] at h <;> subst h <;> decide

/-- The restart resolver never returns the empty string as a command. -/
lemma get_restart_command_ne_empty {p c : String} (h : get_restart_command p = some c) :
    c ≠ "" := by
  unfold get_restart_command at h
  split_ifs at h <;> simp only [Option.some.injEq] at h <;> subst h <;> decide

/-- When the extracted credential equals the configured secret and is
non-empty, the guard passes the request through to the handler. -/
lemma token_required_pass (secret : String) (hdr form args : Option String)
    (f : HttpResponse × List String)
    (hauth : extract_token_from_request hdr form args = some secret) (hne : secret ≠ "") :
    token_required secret hdr form args f = f := by
  unfold token_required
  simp [hauth, pyFalsy, hne]

/-!
## Claims
-/

/-- Claim C1, counterexample: the tag `linuxmint` is not `linux`,
`wsl` or `darwin` and does not start with `linux-`, so the claim says
both resolvers signal unsupported; the code resolves it to the
linux-family commands because it tests `startswith('linux')`, not
`startswith('linux-')`. -/
theorem c1_counterexample :
    get_shutdown_command "linuxmint" = some "sudo shutdown -h now"
  ∧ get_restart_command "linuxmint" = some "shutdown -r now"
  ∧ ¬("linuxmint" = "linux" ∨ "linuxmint" = "wsl" ∨ "linuxmint" = "darwin"
      ∨ hasPfx "linux-" "linuxmint" = true) := by decide

/-- Claim C1 as amended: for both operations the resolvers return
the linux-family commands exactly for tags equal to `linux`, `wsl`,
`darwin`, or starting with `linux` (not only `linux-`); the windows
commands exactly for `windows`; and `none` for every other tag. -/
theorem c1_amended (p : String) :
    (get_shutdown_command p = some "sudo shutdown -h now"
       ∧ get_restart_command p = some "shutdown -r now"
     ↔ p = "linux" ∨ p = "wsl" ∨ p = "darwin" ∨ hasPfx "linux" p = true)
  ∧ (get_shutdown_command p = some "shutdown /s /f /t 0"
       ∧ get_restart_command p = some "shutdown /r /f /t 0"
     ↔ p = "windows")
  ∧ (get_shutdown_command p = none ∧ get_restart_command p = none
     ↔ ¬(p = "linux" ∨ p = "wsl" ∨ p = "darwin" ∨ hasPfx "linux" p = true)
       ∧ p ≠ "windows") := by
  have hw : p = "windows" → hasPfx "linux" p = false := by
    intro h; subst h; decide
  unfold get_shutdown_command get_restart_command
  by_cases h1 : p = "linux" <;> by_cases h2 : p = "wsl" <;> by_cases h3 : p = "darwin" <;>
    by_cases h4 : hasPfx "linux" p = true <;> by_cases h5 : p = "windows" <;>
    simp_all

/-- Claim C3: for every command and every modelled process outcome,
`run_command` returns a populated `(text, status)` pair (totality of
the embedding: no exception escapes): exit status 0 yields the
captured stdout with status 0; a nonzero exit status yields the
`CalledProcessError` diagnostic naming the command and exit status,
with that same nonzero status; a launch failure yields the error's
message with status 1. -/
theorem c3 (command : String) (outcome : ProcOutcome) :
    (∀ out, outcome = .exited out 0 → run_command command outcome = (out, 0))
  ∧ (∀ out n, outcome = .exited out (n + 1) →
      run_command command outcome = (calledProcessErrorStr command (n + 1), n + 1)
      ∧ n + 1 ≠ 0)
  ∧ (∀ msg, outcome = .launchError msg → run_command command outcome = (msg, 1)) := by
  refine ⟨?_, ?_, ?_⟩ <;> intros <;> subst_vars <;> simp [run_command]

/-- Claim C3 witness: `run_command` on a process that exited with
status 3 returns the diagnostic text and status 3. -/
theorem c3_witness :
    run_command "boom" (.exited "x" 3) = (calledProcessErrorStr "boom" 3, 3)
    ∧ (3 : Nat) ≠ 0 :=
  (c3 "boom" (.exited "x" 3)).2.1 "x" 2 rfl

/-- Claim C5, counterexample: with the configured secret `""` and a
present-but-empty `token` query parameter, the claim says the request
is authenticated and reaches the handler; the code classifies the
empty credential as missing, returns 403 `Token is missing!`, and
executes no command. -/
theorem c5_counterexample :
    extract_token_from_request none none (some "") = some ""
  ∧ (shutdown_endpoint "" none none (some "") "linux" (fun _ => ("ok", 0))).1 =
      { status := 403, message := "Token is missing!" }
  ∧ (shutdown_endpoint "" none none (some "") "linux" (fun _ => ("ok", 0))).2 = [] := by
  decide

/-- Claim C5 as amended: with the configured secret `""` and an
empty-but-present credential, the guard never reaches the equality
comparison: the empty credential is classified as missing and every
handler is rejected with 403 `Token is missing!`. -/
theorem c5_amended (handler : HttpResponse × List String) :
    extract_token_from_request none none (some "") = some ""
  ∧ token_required "" none none (some "") handler =
      ({ status := 403, message := "Token is missing!" }, []) :=
  ⟨rfl, rfl⟩

/-- Claim C9: whenever the extracted credential is absent or the
empty string, the guard returns 403 `Token is missing!` (executing
nothing) for every configured secret and every handler — the
credential is never compared against the secret. -/
theorem c9 (secret : String) (hdr form args : Option String)
    (handler : HttpResponse × List String)
    (h : pyFalsy (extract_token_from_request hdr form args) = true) :
    token_required secret hdr form args handler =
      ({ status := 403, message := "Token is missing!" }, []) := by
  unfold token_required
  simp [h]

/-- Claim C9 witness: a request with no credential anywhere is
rejected as missing under the secret `topsecret`. -/
theorem c9_witness :
    token_required "topsecret" none none none
      (({ status := 200, message := "ok" } : HttpResponse), ["cmd"]) =
      ({ status := 403, message := "Token is missing!" }, []) :=
  c9 "topsecret" none none none _ (by decide)

/-- Claim C10: a present-but-empty Authorization header is not taken
as the credential: extraction behaves exactly as if the header were
absent, falling back to the form field and then the query parameter;
and a present-but-empty form token likewise falls through to the
query parameter. -/
theorem c10 (form args : Option String) :
    extract_token_from_request (some "") form args =
      extract_token_from_request none form args
  ∧ extract_token_from_request (some "") form args = pyOrStr form args
  ∧ extract_token_from_request none (some "") args = args := by
  refine ⟨rfl, rfl, rfl⟩

/-- Claim C4, counterexample: with a present-but-empty Authorization
header and the form field `token=formtok`, the claim's extraction
order yields the trimmed empty header value as the credential, but
the code falls through to the form field and yields `formtok`. -/
theorem c4_counterexample :
    extract_token_from_request (some "") (some "formtok") none = some "formtok"
  ∧ extract_token_spec (some "") (some "formtok") none = some ""
  ∧ extract_token_from_request (some "") (some "formtok") none ≠
      extract_token_spec (some "") (some "formtok") none := by decide

/-- Claim C4 as amended: extraction uses the first matching source
with no merging — a present non-empty Authorization header yields the
bearer remainder trimmed (when it case-insensitively starts with
`bearer `) or the whole value trimmed; when the header is absent or
its value is the empty string, extraction falls back to the form
field `token` and then the query parameter `token`. -/
theorem c4_amended (hdr form args : Option String) :
    extract_token_from_request hdr form args = extract_token_spec_amended hdr form args := by
  cases hdr with
  | none => rfl
  | some h =>
      by_cases he : h = ""
      · subst he; rfl
      · unfold extract_token_from_request extract_token_spec_amended
        simp [he]

/-- Claim C6, counterexample: an empty-but-present `token` query
parameter under the configured secret `s` is a found credential that
is not string-equal to the secret, so the claim says the response is
403 `Invalid token!`; the code classifies it as missing and responds
403 `Token is missing!`. -/
theorem c6_counterexample :
    extract_token_from_request none none (some "") = some ""
  ∧ ("" : String) ≠ "s"
  ∧ token_required "s" none none (some "")
      (({ status := 200, message := "ok" } : HttpResponse), ["c"]) =
      ({ status := 403, message := "Token is missing!" }, []) := by decide

/-- Claim C6 as amended: if no credential is found or the found
credential is the empty string, the guard responds 403
`Token is missing!`; if a non-empty credential is found that is not
string-equal to the configured secret, it responds 403
`Invalid token!`; if a non-empty credential equals the secret, the
guard invokes the wrapped handler. -/
theorem c6_amended (secret : String) (hdr form args : Option String)
    (handler : HttpResponse × List String) :
    if pyFalsy (extract_token_from_request hdr form args) then
      token_required secret hdr form args handler =
        ({ status := 403, message := "Token is missing!" }, [])
    else if extract_token_from_request hdr form args ≠ some secret then
      token_required secret hdr form args handler =
        ({ status := 403, message := "Invalid token!" }, [])
    else
      token_required secret hdr form args handler = handler := by
  unfold token_required
  split_ifs <;> simp_all

/-- Claim C7: the code's platform detection agrees with the spec's
algorithm on every input — the microsoft check takes priority on
linux, the distro source falls back to the text before the first
hyphen of the generic platform description, an empty distro gives
plain `linux`, a non-empty one gives `linux-<distro>`, and every
non-linux family maps to its lowercased name unchanged. -/
theorem c7 (sys rel : String) (ds : Option String) (pd : String) :
    detect_platform sys rel ds pd = detect_platform_spec sys rel ds pd := by
  unfold detect_platform detect_platform_spec
  by_cases hsys : lowerStr sys = "linux" <;>
    by_cases hms : hasSub "microsoft" (lowerStr rel) = true <;>
    cases ds <;> simp_all

/-- Claim C2: on every authenticated request (the extracted
credential equals the configured secret and is non-empty), the
`/shutdown` dispatcher responds 400 `Unsupported platform: <tag>`
when the resolver signals unsupported, 500 `Failed to shut down` with
the executor's text whitespace-stripped in the `error` field when the
executor's status is nonzero, and 200 `Shutdown command issued` with
the tag in the `platform` field when the status is 0; `/restart`
behaves identically with its own wording. -/
theorem c2 (secret : String) (hdr form args : Option String) (tag : String)
    (exec : String → String × Nat)
    (hauth : extract_token_from_request hdr form args = some secret) (hne : secret ≠ "") :
    ((get_shutdown_command tag = none →
        shutdown_endpoint secret hdr form args tag exec =
          ({ status := 400, message := "Unsupported platform: " ++ tag }, []))
      ∧ (∀ cmd, get_shutdown_command tag = some cmd →
          ((exec cmd).2 ≠ 0 →
            shutdown_endpoint secret hdr form args tag exec =
              ({ status := 500, message := "Failed to shut down",
                 error := some (pyStrip (exec cmd).1) }, [cmd]))
          ∧ ((exec cmd).2 = 0 →
            shutdown_endpoint secret hdr form args tag exec =
              ({ status := 200, message := "Shutdown command issued",
                 platform := some tag }, [cmd]))))
  ∧ ((get_restart_command tag = none →
        restart_endpoint secret hdr form args tag exec =
          ({ status := 400, message := "Unsupported platform: " ++ tag }, []))
      ∧ (∀ cmd, get_restart_command tag = some cmd →
          ((exec cmd).2 ≠ 0 →
            restart_endpoint secret hdr form args tag exec =
              ({ status := 500, message := "Failed to restart",
                 error := some (pyStrip (exec cmd).1) }, [cmd]))
          ∧ ((exec cmd).2 = 0 →
            restart_endpoint secret hdr form args tag exec =
              ({ status := 200, message := "Restart command issued",
                 platform := some tag }, [cmd])))) := by
  have hs := token_required_pass secret hdr form args (shutdown_handler tag exec) hauth hne
  have hr := token_required_pass secret hdr form args (restart_handler tag exec) hauth hne
  unfold shutdown_endpoint restart_endpoint
  rw [hs, hr]
  constructor
  · constructor
    · intro h
      unfold shutdown_handler
      simp [h, pyFalsy]
    · intro cmd hc
      have hcne : cmd ≠ "" := get_shutdown_command_ne_empty hc
      unfold shutdown_handler
      rw [hc]
      constructor
      · intro hnz
        simp [pyFalsy, hcne, hnz]
      · intro hz
        simp [pyFalsy, hcne, hz]
  · constructor
    · intro h
      unfold restart_handler
      simp [h, pyFalsy]
    · intro cmd hc
      have hcne : cmd ≠ "" := get_restart_command_ne_empty hc
      unfold restart_handler
      rw [hc]
      constructor
      · intro hnz
        simp [pyFalsy, hcne, hnz]
      · intro hz
        simp [pyFalsy, hcne, hz]

/-- Claim C2 witness: an authenticated shutdown request on the tag
`beos` (unsupported) receives the 400 response naming the tag. -/
theorem c2_witness :
    shutdown_endpoint "s" (some "Bearer s") none none "beos" (fun _ => ("", 0)) =
      ({ status := 400, message := "Unsupported platform: " ++ "beos" }, []) :=
  (c2 "s" (some "Bearer s") none none "beos" (fun _ => ("", 0))
    (by decide) (by decide)).1.1 (by decide)

/-- Claim C8: whenever the guard rejects a request to `/shutdown` or
`/restart` (the extracted credential is missing/empty, or differs
from the configured secret), the request executes no shell command at
all: the executed-command trace of both endpoints is empty, so
`run_command` is never invoked. -/
theorem c8 (secret : String) (hdr form args : Option String) (tag : String)
    (exec : String → String × Nat)
    (hrej : pyFalsy (extract_token_from_request hdr form args) = true
          ∨ extract_token_from_request hdr form args ≠ some secret) :
    (shutdown_endpoint secret hdr form args tag exec).2 = []
  ∧ (restart_endpoint secret hdr form args tag exec).2 = [] := by
  unfold shutdown_endpoint restart_endpoint token_required
  rcases hrej with h | h
  · simp [h]
  · by_cases hf : pyFalsy (extract_token_from_request hdr form args) = true <;>
      simp [hf, h]

/-- Claim C8 witness: a credential-less request to either endpoint on
the tag `linux` executes no command. -/
theorem c8_witness :
    (shutdown_endpoint "s" none none none "linux" (fun _ => ("", 0))).2 = []
  ∧ (restart_endpoint "s" none none none "linux" (fun _ => ("", 0))).2 = [] :=
  c8 "s" none none none "linux" (fun _ => ("", 0)) (Or.inl (by decide))
